import Mathlib

/-!
# Verification of the engineering-activity aggregation core

A shallow embedding, in Lean 4, of the cross-provider activity-aggregation
engine of this repository (shared/errors.py, shared/date_utils.py,
shared/jira_client.py, shared/github_client.py, shared/confluence_client.py
and the three `*/analytics_server.py` metric pipelines), together with
theorems settling the frozen claims about it.

Modelling conventions:
* Python floats are modelled as `ℚ` (exact arithmetic; binary-float rounding
  is out of scope for every claim, which all concern selection, guarding and
  control flow rather than float representation).
* Parsed timestamps (`datetime` values produced by `parse_iso_date`) are
  modelled as rational epoch-second counts; `calculate_hours_between` then
  is exact division by 3600, as in date_utils.py.
* Provider JSON payloads are modelled as structures carrying exactly the
  fields the embedded functions read; a field that may be absent in the JSON
  is an `Option`.
* `httpx` responses are a status code, a header list and a body text;
  header lookup is case-insensitive as in `httpx.Headers`.
* Network effects are made explicit: each embedded operation receives the
  transport results (or a fetch oracle) as an argument and returns
  `Except` of the raised Python exception.
-/

/-- From date_utils.py, `calculate_hours_between`: signed hour count between
two parsed timestamps, `delta.total_seconds() / 3600`. -/
def calculate_hours_between (start_dt end_dt : ℚ) : ℚ :=
  (end_dt - start_dt) / 3600

/-- Python `round` to an integer: round-half-to-even (banker's rounding). -/
def pyRoundHalfEven (q : ℚ) : ℤ :=
  let f := ⌊q⌋
  let frac := q - f
  if frac < 1/2 then f
  else if 1/2 < frac then f + 1
  else if f % 2 = 0 then f else f + 1

/-- Python `round(x, ndigits)` on an exact rational. -/
def pyRound (q : ℚ) (ndigits : ℕ) : ℚ :=
  (pyRoundHalfEven (q * 10 ^ ndigits) : ℚ) / 10 ^ ndigits

/-- Code-point-wise lexicographic comparison of character lists. -/
def charListLe : List Char → List Char → Bool
  | [], _ => true
  | _ :: _, [] => false
  | a :: as, b :: bs =>
    if a.val < b.val then true
    else if b.val < a.val then false
    else charListLe as bs

/-- Python string `<=`: lexicographic by code point. -/
def pyStrLe (s t : String) : Bool := charListLe s.data t.data

/-- An HTTP response as seen by the transport layers: status code, response
headers and body text. -/
structure HTTPResponse where
  status : ℕ
  headers : List (String × String)
  text : String

/-- ASCII lower-casing of one character (header names are ASCII). -/
def pyCharToLower (c : Char) : Char :=
  if 65 ≤ c.toNat && c.toNat ≤ 90 then Char.ofNat (c.toNat + 32) else c

/-- ASCII lower-casing of a string. -/
def pyStrToLower (s : String) : String := String.mk (s.data.map pyCharToLower)

/-- Case-insensitive header lookup, as performed by `httpx.Headers`
(both `response.headers.get(k)` and `k in response.headers`). -/
def headersLookup (hs : List (String × String)) (key : String) : Option String :=
  (hs.find? (fun kv => pyStrToLower kv.1 == pyStrToLower key)).map (fun kv => kv.2)

/-- Base-10 digit-string value; `none` when empty or any character is not a
digit. -/
def digitsToNat : List Char → Option ℕ
  | [] => none
  | cs => cs.foldl (fun acc c =>
      match acc with
      | none => none
      | some n => if c.isDigit then some (n * 10 + (c.toNat - 48)) else none) (some 0)

/-- Python `int(s)` on a string: optional surrounding whitespace, optional
sign, then decimal digits; `none` models the `ValueError` branch. -/
def pyIntOfString (s : String) : Option ℤ :=
  let cs := s.data.dropWhile Char.isWhitespace
  let cs := (cs.reverse.dropWhile Char.isWhitespace).reverse
  match cs with
  | '-' :: rest => (digitsToNat rest).map (fun n => -(n : ℤ))
  | '+' :: rest => (digitsToNat rest).map (fun n => (n : ℤ))
  | rest => (digitsToNat rest).map (fun n => (n : ℤ))

/-- `httpx.Response.is_success`: the status is in the 2xx range. -/
def httpIsSuccess (status : ℕ) : Bool :=
  200 ≤ status && status < 300

/-- The exception values raised by the transport layers.  The constructors
mirror the classes of shared/errors.py, plus the two local plain exception
classes `GitHubAPIError` (shared/github_client.py) and `JiraAPIError`
(shared/jira_client.py), which are bare `Exception` subclasses carrying only
a message and are distinct from the taxonomy of shared/errors.py. -/
inductive APIErrorVal where
  | authenticationError (api_name : String)
  | permissionError (api_name : String)
  | notFoundError (api_name : String)
  | rateLimitError (api_name : String) (retry_after : Option ℤ)
  | apiError (message : String) (api_name : String) (status_code : Option ℕ)
      (response_body : Option String)
  | confluenceAPIError (message : String) (status_code : Option ℕ)
      (response_body : Option String)
  | githubAPIErrorLocal (message : String)
  | jiraAPIErrorLocal (message : String)
  | networkError (message : String) (api_name : Option String)
deriving DecidableEq, Repr

/-- The `message` attribute each taxonomy class builds in its constructor
(shared/errors.py). `rateLimitError` appends the retry hint only when
`retry_after` is truthy, i.e. present and non-zero. -/
def apiErrorMessage : APIErrorVal → String
  | .authenticationError api =>
      api ++ " API authentication failed. Check your credentials."
  | .permissionError api => "Access forbidden to " ++ api
  | .notFoundError api => "Resource not found in " ++ api
  | .rateLimitError api ra =>
      (api ++ " API rate limit exceeded") ++
        (match ra with
          | some n => if n ≠ 0 then ". Retry after " ++ toString n ++ " seconds" else ""
          | none => "")
  | .apiError msg _ _ _ => msg
  | .confluenceAPIError msg _ _ => msg
  | .githubAPIErrorLocal msg => msg
  | .jiraAPIErrorLocal msg => msg
  | .networkError msg _ => msg

/-- The `status_code` attribute of the taxonomy error values. -/
def apiErrorStatus : APIErrorVal → Option ℕ
  | .authenticationError _ => some 401
  | .permissionError _ => some 403
  | .notFoundError _ => some 404
  | .rateLimitError _ _ => some 429
  | .apiError _ _ st _ => st
  | .confluenceAPIError _ st _ => st
  | .githubAPIErrorLocal _ => none
  | .jiraAPIErrorLocal _ => none
  | .networkError _ _ => none

/-- The `response_body` attribute of the taxonomy error values. -/
def apiErrorBody : APIErrorVal → Option String
  | .apiError _ _ _ b => b
  | .confluenceAPIError _ _ b => b
  | _ => none

/-- shared/errors.py, `create_api_error_from_response`: map a non-2xx
response to the most specific taxonomy error.  For 429 the `Retry-After`
header is read (case-insensitively), then `int(...)` is attempted only when
the string is truthy, with `ValueError` mapped to `None`. -/
def create_api_error_from_response (api_name : String) (response : HTTPResponse) :
    APIErrorVal :=
  if response.status = 401 then .authenticationError api_name
  else if response.status = 403 then .permissionError api_name
  else if response.status = 404 then .notFoundError api_name
  else if response.status = 429 then
    .rateLimitError api_name
      (match headersLookup response.headers "Retry-After" with
        | some s => if s = "" then none else pyIntOfString s
        | none => none)
  else
    .apiError (api_name ++ " API request failed with status " ++ toString response.status)
      api_name (some response.status) (some response.text)

/-- shared/errors.py, `create_confluence_error`: rewrap the error from
`create_api_error_from_response` as a `ConfluenceAPIError` carrying the
base error's message, status code and response body. -/
def create_confluence_error (response : HTTPResponse) : APIErrorVal :=
  let base := create_api_error_from_response "Confluence" response
  .confluenceAPIError (apiErrorMessage base) (apiErrorStatus base) (apiErrorBody base)

/-- shared/confluence_client.py, `ConfluenceClient._make_request`, response
handling: 429 raises `RateLimitError("Confluence", retry_after)` with the
retry-after header parsed when present ('retry-after' in response.headers,
then `int(...)` with `ValueError` swallowed); any other non-2xx raises
`create_confluence_error(response)`; a 2xx returns the decoded body. -/
def ConfluenceClient_handle_response (response : HTTPResponse) :
    Except APIErrorVal String :=
  if response.status = 429 then
    .error (.rateLimitError "Confluence"
      ((headersLookup response.headers "retry-after").bind pyIntOfString))
  else if !(httpIsSuccess response.status) then
    .error (create_confluence_error response)
  else
    .ok response.text

/-- shared/github_client.py, `GitHubClient._make_request`, response handling:
429 raises the local `GitHubAPIError` with a fixed message; any other
non-2xx raises the local `GitHubAPIError` with status and body interpolated;
a 2xx returns the decoded body.  No taxonomy `RateLimitError` is involved
and no retry-after header is read. -/
def GitHubClient_handle_response (response : HTTPResponse) :
    Except APIErrorVal String :=
  if response.status = 429 then
    .error (.githubAPIErrorLocal
      "Rate limit exceeded. Please wait before making more requests.")
  else if !(httpIsSuccess response.status) then
    .error (.githubAPIErrorLocal
      ("GitHub API request failed: " ++ toString response.status ++ " - " ++ response.text))
  else
    .ok response.text

/-- shared/jira_client.py, `JiraClient._make_request`, response handling:
429 raises the local `JiraAPIError` with a fixed message; any other non-2xx
raises the local `JiraAPIError` with status and body interpolated; a 2xx
returns the decoded body. -/
def JiraClient_handle_response (response : HTTPResponse) :
    Except APIErrorVal String :=
  if response.status = 429 then
    .error (.jiraAPIErrorLocal
      "Rate limit exceeded. Please wait before making more requests.")
  else if !(httpIsSuccess response.status) then
    .error (.jiraAPIErrorLocal
      ("Jira API request failed: " ++ toString response.status ++ " - " ++ response.text))
  else
    .ok response.text

/-- Whether a transport outcome is a raised taxonomy `RateLimitError`. -/
def isRateLimitOutcome : Except APIErrorVal String → Bool
  | .error (.rateLimitError _ _) => true
  | _ => false

/-- The `retry_after` carried by a raised `RateLimitError`, if the outcome
is one. -/
def retryAfterOfOutcome : Except APIErrorVal String → Option ℤ
  | .error (.rateLimitError _ ra) => ra
  | _ => none

/-! ## Pagination (shared loop shape of GitHubClient._paginate_search and
ConfluenceClient._paginate_content)

Both loops are textually identical in the source up to the page marker
scheme: GitHub uses `page`/`per_page` starting at page 1 and incrementing by
1, Confluence uses `start`/`limit` starting at offset 0 and incrementing by
`limit`.  `paginateLoop` captures the loop body once; `fetch m` is the item
list the server returns for marker `m`.  The second component of the result
is the list of page markers actually requested, in order. -/

def paginateLoop {α : Type} (fetch : ℕ → List α) (maxItems pageSize step marker : ℕ)
    (items : List α) : List α × List ℕ :=
  if _h : items.length < maxItems then
    let page_items := fetch marker
    if _hp : page_items.isEmpty then (items, [marker])
    else if page_items.length < pageSize ∨ maxItems ≤ items.length + page_items.length then
      (items ++ page_items, [marker])
    else
      let r := paginateLoop fetch maxItems pageSize step (marker + step) (items ++ page_items)
      (r.1, marker :: r.2)
  else (items, [])
termination_by maxItems - items.length
decreasing_by
  simp only [List.length_append]
  simp only [List.isEmpty_iff] at _hp
  have hx : page_items.length = (fetch marker).length := rfl
  have hpos : 0 < page_items.length := List.length_pos.mpr _hp
  omega

/-- shared/github_client.py, `GitHubClient._paginate_search`: page size is
`min(100, max_items)` (GitHub's maximum is 100), pages are numbered from 1,
and the accumulated list is truncated to `max_items` on return. -/
def GitHubClient_paginate_search {α : Type} (fetch : ℕ → List α) (max_items : ℕ) :
    List α :=
  let per_page := min 100 max_items
  ((paginateLoop fetch max_items per_page 1 1 []).1).take max_items

/-- The page numbers `GitHubClient._paginate_search` actually requests. -/
def GitHubClient_paginate_search_requests {α : Type} (fetch : ℕ → List α)
    (max_items : ℕ) : List ℕ :=
  (paginateLoop fetch max_items (min 100 max_items) 1 1 []).2

/-- shared/confluence_client.py, `ConfluenceClient._paginate_content`: page
size is `min(50, max_items)`, offsets start at 0 and advance by `limit`, and
the accumulated list is truncated to `max_items` on return. -/
def ConfluenceClient_paginate_content {α : Type} (fetch : ℕ → List α) (max_items : ℕ) :
    List α :=
  let limit := min 50 max_items
  ((paginateLoop fetch max_items limit limit 0 []).1).take max_items

/-- The offsets `ConfluenceClient._paginate_content` actually requests. -/
def ConfluenceClient_paginate_content_requests {α : Type} (fetch : ℕ → List α)
    (max_items : ℕ) : List ℕ :=
  (paginateLoop fetch max_items (min 50 max_items) (min 50 max_items) 0 []).2

/-- shared/jira_client.py, `JiraClient.search_issues`: a single request with
`startAt = 0` and `maxResults = min(max_results, 100)`; there is no
pagination loop.  `fetch` maps the `(startAt, maxResults)` parameters to the
issue list the server returns; the second component records the one request
made. -/
def JiraClient_search_issues {α : Type} (fetch : ℕ × ℕ → List α) (max_results : ℕ) :
    List α × List (ℕ × ℕ) :=
  let params := (0, min max_results 100)
  (fetch params, [params])

/-- `ceil(a / b)` on naturals (for the request-count bound). -/
def ceilDiv (a b : ℕ) : ℕ := (a + b - 1) / b

/-! ## Jira data model and metric helpers (shared/jira_client.py) -/

/-- One entry of a changelog history's `items` array, as read by
`_extract_status_transitions`: the changed field's name and the from/to
display strings (either may be absent/null in the JSON). -/
structure JiraHistoryItem where
  field : String
  fromString : Option String
  toString : Option String
deriving DecidableEq, Repr

/-- One entry of `changelog.histories`: its `created` timestamp string (may
be absent or empty, both falsy in Python), the author's email address, and
the changed items. -/
structure JiraHistory where
  created : Option String
  authorEmail : Option String
  items : List JiraHistoryItem
deriving DecidableEq, Repr

/-- The fields of a Jira issue that the metric computations read.  `created`
and `resolutiondate` are the parsed timestamps (epoch seconds); `none`
models both an absent field and a value `parse_iso_date` rejects, since
`_calculate_lead_times` treats the two identically (skip the issue). -/
structure JiraIssue where
  created : Option ℚ
  resolutiondate : Option ℚ
  histories : List JiraHistory
deriving DecidableEq, Repr

/-- A status transition extracted from a changelog, mirroring the dict built
by `_extract_status_transitions`. -/
structure StatusTransition where
  date : String
  from_status : Option String
  to_status : Option String
  author : Option String
deriving DecidableEq, Repr

/-- shared/jira_client.py, `JiraClient._extract_status_transitions`: walk the
histories in order, skip those with a falsy `created`, and emit one
transition per item whose `field` is `"status"`, in encounter order. -/
def JiraClient_extract_status_transitions (issue : JiraIssue) : List StatusTransition :=
  issue.histories.flatMap (fun history =>
    match history.created with
    | none => []
    | some created =>
      if created = "" then []
      else
        history.items.filterMap (fun item =>
          if item.field = "status" then
            some { date := created, from_status := item.fromString,
                   to_status := item.toString, author := history.authorEmail }
          else none))

/-- The fixed resolved-class status label set of `_count_reopened_issues`. -/
def isResolvedStatusName (s : String) : Bool :=
  s == "Done" || s == "Resolved" || s == "Closed" || s == "Fix Released" || s == "Complete"

/-- The fixed active-class status label set of `_count_reopened_issues`. -/
def isActiveStatusName (s : String) : Bool :=
  s == "Open" || s == "In Progress" || s == "To Do" || s == "Reopened" ||
    s == "In Review" || s == "Testing"

/-- Whether a transition's `to_status` is in the resolved-class set (a null
`to_status` is in neither set, as `None in {...}` is false in Python). -/
def toStatusResolved (t : StatusTransition) : Bool :=
  match t.to_status with
  | some s => isResolvedStatusName s
  | none => false

/-- Whether a transition's `to_status` is in the active-class set. -/
def toStatusActive (t : StatusTransition) : Bool :=
  match t.to_status with
  | some s => isActiveStatusName s
  | none => false

/-- The per-issue walk of `_count_reopened_issues`: scan the (sorted)
transitions with a `was_resolved` flag; a transition into the resolved set
sets the flag; once it is set, a transition into the active set stops the
scan and reports the issue as reopened (`break`: at most once per issue). -/
def reopenedScan (was_resolved : Bool) : List StatusTransition → Bool
  | [] => false
  | t :: rest =>
    if toStatusResolved t then reopenedScan true rest
    else if was_resolved && toStatusActive t then true
    else reopenedScan was_resolved rest

/-- Insert a transition into a date-sorted list, before the first entry with
a key not smaller than its own (the insertion step of a stable sort). -/
def insertByDate (t : StatusTransition) : List StatusTransition → List StatusTransition
  | [] => [t]
  | u :: rest => if pyStrLe t.date u.date then t :: u :: rest else u :: insertByDate t rest

/-- Stable sort by the `date` key.  Python's `sorted` is stable, and any two
stable sorts by the same key agree on every input, so this insertion sort
produces exactly the list `sorted(transitions, key=lambda x: x["date"])`
that `_count_reopened_issues` walks. -/
def sortByDate : List StatusTransition → List StatusTransition
  | [] => []
  | t :: rest => insertByDate t (sortByDate rest)

/-- An issue's transitions in the order `_count_reopened_issues` walks them:
`sorted(transitions, key=lambda x: x["date"])`. -/
def sortedTransitions (issue : JiraIssue) : List StatusTransition :=
  sortByDate (JiraClient_extract_status_transitions issue)

/-- shared/jira_client.py, `JiraClient._count_reopened_issues`: sum over the
issues of the per-issue reopened indicator. -/
def JiraClient_count_reopened_issues (issues : List JiraIssue) : ℕ :=
  issues.foldl
    (fun reopened_count issue =>
      if reopenedScan false (sortedTransitions issue) then reopened_count + 1
      else reopened_count)
    0

/-- shared/jira_client.py, `JiraClient._calculate_lead_times`: for issues
having both `created` and `resolutiondate`, the hour count between them,
kept only when non-negative, in issue order. -/
def JiraClient_calculate_lead_times : List JiraIssue → List ℚ
  | [] => []
  | issue :: rest =>
    match issue.created, issue.resolutiondate with
    | some created_dt, some resolved_dt =>
      let lead_time_hours := calculate_hours_between created_dt resolved_dt
      if 0 ≤ lead_time_hours then lead_time_hours :: JiraClient_calculate_lead_times rest
      else JiraClient_calculate_lead_times rest
    | _, _ => JiraClient_calculate_lead_times rest

/-! ## Metric arithmetic of the analytics servers -/

/-- mcp_jira/analytics_server.py: `avg_lead_time_hours` is `None` when the
lead-time list is empty, otherwise `sum(lead_times) / len(lead_times)`. -/
def jiraAvgLeadTime (lead_times : List ℚ) : Option ℚ :=
  if lead_times.isEmpty then none else some (lead_times.sum / lead_times.length)

/-- mcp_github/analytics_server.py: `avg_pr_cycle_hours`, same computation
over the cycle-time list. -/
def githubAvgCycleTime (cycle_times : List ℚ) : Option ℚ :=
  if cycle_times.isEmpty then none else some (cycle_times.sum / cycle_times.length)

/-- mcp_jira/analytics_server.py, `lead_times` block of the result:
`average_hours` is `round(avg_lead_time_hours, 1) if avg_lead_time_hours
else None` (Python truthiness: `None` and `0.0` both take the `else`
branch), `average_days` likewise over `avg / 24`, and `resolved_count` is
`len(lead_times)`. -/
def jiraLeadTimesBlock (lead_times : List ℚ) : Option ℚ × Option ℚ × ℕ :=
  let avg_lead_time_hours := jiraAvgLeadTime lead_times
  ((match avg_lead_time_hours with
     | some q => if q = 0 then none else some (pyRound q 1)
     | none => none),
   (match avg_lead_time_hours with
     | some q => if q = 0 then none else some (pyRound (q / 24) 1)
     | none => none),
   lead_times.length)

/-- mcp_github/analytics_server.py, `cycle_times` block of the result: same
shape (`average_hours`, `average_days`, `total_merged`). -/
def githubCycleTimesBlock (cycle_times : List ℚ) : Option ℚ × Option ℚ × ℕ :=
  let avg_pr_cycle_hours := githubAvgCycleTime cycle_times
  ((match avg_pr_cycle_hours with
     | some q => if q = 0 then none else some (pyRound q 1)
     | none => none),
   (match avg_pr_cycle_hours with
     | some q => if q = 0 then none else some (pyRound (q / 24) 1)
     | none => none),
   cycle_times.length)

/-- mcp_jira/analytics_server.py, line 142:
`round(issues_resolved / issues_assigned, 2) if issues_assigned > 0 else 0`. -/
def jiraResolutionRate (issues_resolved issues_assigned : ℕ) : ℚ :=
  if 0 < issues_assigned then pyRound ((issues_resolved : ℚ) / issues_assigned) 2 else 0

/-- mcp_jira/analytics_server.py, line 144:
`round((issues_resolved - reopened_count) / issues_resolved, 2) if
issues_resolved > 0 else 0`. -/
def jiraQualityScore (issues_resolved reopened_count : ℕ) : ℚ :=
  if 0 < issues_resolved then
    pyRound (((issues_resolved : ℚ) - reopened_count) / issues_resolved) 2
  else 0

/-- mcp_github/analytics_server.py, line 151:
`round(prs_merged / prs_authored, 2) if prs_authored > 0 else 0`. -/
def githubMergeRate (prs_merged prs_authored : ℕ) : ℚ :=
  if 0 < prs_authored then pyRound ((prs_merged : ℚ) / prs_authored) 2 else 0

/-- mcp_github/analytics_server.py, line 161:
`round(reviews_given / prs_authored, 1) if prs_authored > 0 else 0`. -/
def githubReviewParticipation (reviews_given prs_authored : ℕ) : ℚ :=
  if 0 < prs_authored then pyRound ((reviews_given : ℚ) / prs_authored) 1 else 0

/-- mcp_confluence/analytics_server.py, lines 139-143: `days_period` is the
signed day difference of the parsed dates, and `weeks_period` is
`max(days_period / 7, 1) if days_period >= 0 else 1`. -/
def confluenceWeeksPeriod (days_period : ℤ) : ℚ :=
  if 0 ≤ days_period then max ((days_period : ℚ) / 7) 1 else 1

/-- mcp_confluence/analytics_server.py, line 157 (and analogously 158, 162):
`round(pages_created / weeks_period, 1)`. -/
def confluenceCreationRate (pages_created : ℕ) (weeks_period : ℚ) : ℚ :=
  pyRound ((pages_created : ℚ) / weeks_period) 1

/-- mcp_confluence/analytics_server.py, line 163:
`round(comments_written / (pages_created + pages_updated), 1) if
(pages_created + pages_updated) > 0 else 0`. -/
def confluenceEngagementRatio (comments_written pages_created pages_updated : ℕ) : ℚ :=
  if 0 < pages_created + pages_updated then
    pyRound ((comments_written : ℚ) / ((pages_created : ℚ) + pages_updated)) 1
  else 0

/-! ## Confluence data model (shared/confluence_client.py and
mcp_confluence/analytics_server.py) -/

/-- A Confluence content item with the fields the embedded code reads: its
`id`, the last modifier's `email` and `accountId`
(`history.lastUpdated.by`), and its space name. -/
structure ConfluencePage where
  id : Option String
  modifierEmail : Option String
  modifierAccountId : Option String
  spaceName : Option String
deriving DecidableEq, Repr

/-- A Confluence comment's `version` fields read by
`search_comments_by_user`: author identity and the `when` timestamp (parsed;
`none` models both an absent `when` and one `parse_iso_date` rejects, which
the code skips identically). -/
structure ConfluenceComment where
  authorEmail : Option String
  authorAccountId : Option String
  whenTs : Option ℚ
deriving DecidableEq, Repr

/-- shared/confluence_client.py, `ConfluenceClient.search_updated_content_by_user`:
the CQL search result (which CQL cannot filter by modifier) is post-filtered
in-process, keeping an item iff the last modifier's email or accountId
equals the subject.  A transport error from the search propagates. -/
def ConfluenceClient_search_updated_content_by_user (user_email_or_account_id : String)
    (search_result : Except APIErrorVal (List ConfluencePage)) :
    Except APIErrorVal (List ConfluencePage) := do
  let content_items ← search_result
  pure (content_items.filter (fun item =>
    item.modifierEmail == some user_email_or_account_id ||
      item.modifierAccountId == some user_email_or_account_id))

/-- One iteration of the per-page loop of `search_comments_by_user`: skip a
page without an id, skip (after logging) a page whose comment fetch raises
`ConfluenceAPIError`, and otherwise keep the comments authored by the
subject with a present timestamp inside the inclusive range. -/
def commentsPageStep (user_email_or_account_id : String) (from_dt to_dt : ℚ)
    (fetch_comments : String → Except APIErrorVal (List ConfluenceComment))
    (user_comments : List ConfluenceComment) (page : ConfluencePage) :
    List ConfluenceComment :=
  match page.id with
  | none => user_comments
  | some page_id =>
    match fetch_comments page_id with
    | .error _ => user_comments
    | .ok comments =>
      user_comments ++ comments.filter (fun comment =>
        match comment.whenTs with
        | none => false
        | some comment_dt =>
          (comment.authorEmail == some user_email_or_account_id ||
            comment.authorAccountId == some user_email_or_account_id) &&
          (decide (from_dt ≤ comment_dt) && decide (comment_dt ≤ to_dt)))

/-- shared/confluence_client.py, `ConfluenceClient.search_comments_by_user`:
after the primary page search (whose transport error propagates), fold the
per-page step over the result. -/
def ConfluenceClient_search_comments_by_user (user_email_or_account_id : String)
    (from_dt to_dt : ℚ)
    (page_search : Except APIErrorVal (List ConfluencePage))
    (fetch_comments : String → Except APIErrorVal (List ConfluenceComment)) :
    Except APIErrorVal (List ConfluenceComment) := do
  let pages ← page_search
  pure (pages.foldl
    (commentsPageStep user_email_or_account_id from_dt to_dt fetch_comments) [])

/-- mcp_confluence/analytics_server.py, lines 106-112: the updated bucket is
the updated search result minus (by page id, a Python set) the pages also in
the created result; `pages_updated` is its length. -/
def confluencePagesUpdatedCount (created_pages updated_pages : List ConfluencePage) : ℕ :=
  let created_page_ids := (created_pages.map (fun page => page.id)).toFinset
  (updated_pages.filter (fun page => decide (page.id ∉ created_page_ids))).length

/-! ## GitHub data model (shared/github_client.py and
mcp_github/analytics_server.py) -/

/-- A search item as read by the review/comment/detail loops: whether it has
a `pull_request` marker, and the repository owner, repository name (both
parsed from `repository_url`) and `number` used to key the secondary
fetches. -/
structure GitHubPR where
  isPullRequest : Bool
  repoOwner : String
  repoName : String
  number : ℕ
deriving DecidableEq, Repr

/-- The key of a PR's secondary fetches. -/
def prKey (pr : GitHubPR) : String × String × ℕ :=
  (pr.repoOwner, pr.repoName, pr.number)

/-- A PR review as filtered by `search_reviews_by_user`: the reviewer's
login and the parsed `submitted_at` timestamp (absent when falsy). -/
structure GitHubReview where
  userLogin : Option String
  submittedAt : Option ℚ
deriving DecidableEq, Repr

/-- One iteration of the per-PR loop of `search_reviews_by_user`: skip a
non-PR search item, skip (after logging) a PR whose review fetch raises
`GitHubAPIError`, and otherwise keep the reviews by `login` with a present
`submitted_at` inside the inclusive range. -/
def reviewsPRStep (login : String) (from_dt to_dt : ℚ)
    (fetch_reviews : String × String × ℕ → Except APIErrorVal (List GitHubReview))
    (user_reviews : List GitHubReview) (pr : GitHubPR) : List GitHubReview :=
  if pr.isPullRequest then
    match fetch_reviews (prKey pr) with
    | .error _ => user_reviews
    | .ok reviews =>
      user_reviews ++ reviews.filter (fun review =>
        (review.userLogin == some login) &&
        (match review.submittedAt with
          | none => false
          | some review_dt =>
            decide (from_dt ≤ review_dt) && decide (review_dt ≤ to_dt)))
  else user_reviews

/-- shared/github_client.py, `GitHubClient.search_reviews_by_user`, second
phase: fold the per-PR step over the primary search result; a transport
error from the primary search itself propagates. -/
def GitHubClient_search_reviews_by_user (login : String) (from_dt to_dt : ℚ)
    (pr_search : Except APIErrorVal (List GitHubPR))
    (fetch_reviews : String × String × ℕ → Except APIErrorVal (List GitHubReview)) :
    Except APIErrorVal (List GitHubReview) := do
  let prs ← pr_search
  pure (prs.foldl (reviewsPRStep login from_dt to_dt fetch_reviews) [])

/-- The PR detail fields `github_engineer_activity` reads: `created_at`
(parsed) and `merged_at` (parsed, absent when null). -/
structure GitHubPRDetail where
  createdAt : ℚ
  mergedAt : Option ℚ
deriving DecidableEq, Repr

/-- One iteration of the detail loop: skip non-PR items, skip (after
logging) a PR whose detail fetch raises `GitHubAPIError`, count a merged PR
and append its cycle time. -/
def prDetailStep (fetch_details : String × String × ℕ → Except APIErrorVal GitHubPRDetail)
    (acc : ℕ × List ℚ) (pr : GitHubPR) : ℕ × List ℚ :=
  if pr.isPullRequest then
    match fetch_details (prKey pr) with
    | .error _ => acc
    | .ok pr_details =>
      match pr_details.mergedAt with
      | some merged_at =>
        (acc.1 + 1, acc.2 ++ [calculate_hours_between pr_details.createdAt merged_at])
      | none => acc
  else acc

/-- mcp_github/analytics_server.py, lines 99-122: the per-PR detail loop —
`prs_merged` and the `cycle_times` list (note: cycle times are appended with
no sign check). -/
def githubAnalyzePRDetails (prs : List GitHubPR)
    (fetch_details : String × String × ℕ → Except APIErrorVal GitHubPRDetail) :
    ℕ × List ℚ :=
  prs.foldl (prDetailStep fetch_details) (0, [])

/-! ## The Jira analytics pipeline (mcp_jira/analytics_server.py) -/

/-- The Python exceptions the Jira analytics pipeline can raise. -/
inductive PyExc where
  | validationError (message : String)
  | jiraAPIError (message : String)
  | attributeError (message : String)
  | genericException (message : String)
deriving DecidableEq, Repr

/-- `str(e)` on a pipeline exception. -/
def pyExcStr : PyExc → String
  | .validationError m => m
  | .jiraAPIError m => m
  | .attributeError m => m
  | .genericException m => m

/-- The input pattern `^\d{4}-\d{2}-\d{2}$` of the pydantic date fields. -/
def matchesYMDPattern (s : String) : Bool :=
  match s.toList with
  | [y1, y2, y3, y4, d1, m1, m2, d2, dd1, dd2] =>
    y1.isDigit && y2.isDigit && y3.isDigit && y4.isDigit && d1 == '-' &&
      m1.isDigit && m2.isDigit && d2 == '-' && dd1.isDigit && dd2.isDigit
  | _ => false

/-- The attribute (method and field) names the `JiraClient` class of
shared/jira_client.py defines; Python attribute lookup on a `JiraClient`
instance succeeds exactly for these. -/
def jiraClientAttributeNames : List String :=
  ["base_url", "email", "api_token", "headers",
   "_make_request", "search_issues", "get_issue_changelog",
   "search_issues_assigned_to_user", "search_issues_resolved_by_user",
   "_extract_status_transitions", "_count_reopened_issues", "_calculate_lead_times"]

/-- Python attribute lookup `getattr(jira_client, name)`: an `AttributeError`
when the class defines no such attribute. -/
def jiraClientGetAttr (name : String) : Except PyExc Unit :=
  if jiraClientAttributeNames.contains name then .ok ()
  else .error (.attributeError
    ("'JiraClient' object has no attribute '" ++ name ++ "'"))

/-- The result dict of `jira_engineer_activity` (metric fields; the
issue-type/priority distribution dicts are independent of every claim and
omitted). -/
structure JiraActivityMetrics where
  issues_assigned : ℕ
  issues_resolved : ℕ
  resolution_rate : ℚ
  reopened : ℕ
  quality_score : ℚ
  lead_avg_hours : Option ℚ
  lead_avg_days : Option ℚ
  lead_resolved_count : ℕ
deriving DecidableEq, Repr

/-- mcp_jira/analytics_server.py, `jira_engineer_activity`: validate the
inputs, run the two searches (a raised `JiraAPIError` aborts), then call
`jira_client.count_reopened_issues(assigned_issues)` — an attribute the
class does not define (only `_count_reopened_issues` exists), so attribute
lookup raises — then lead times and the metric arithmetic.  The surrounding
`try` re-raises a `JiraAPIError` as `Exception("Jira API error: ...")` and
any other exception as `Exception("Failed to calculate Jira engineering
metrics: ...")`.  The two search oracles model
`search_issues_assigned_to_user` / `search_issues_resolved_by_user`. -/
def jira_engineer_activity (user_email_or_account_id from_date to_date : String)
    (_jql_extra : Option String)
    (assigned_search resolved_search : Except String (List JiraIssue)) :
    Except PyExc JiraActivityMetrics :=
  let body : Except PyExc JiraActivityMetrics :=
    if !(matchesYMDPattern from_date && matchesYMDPattern to_date) then
      .error (.validationError
        ("validation error for JiraEngineerActivityInput: " ++
          user_email_or_account_id))
    else do
      let assigned_issues ← assigned_search.mapError PyExc.jiraAPIError
      let resolved_issues ← resolved_search.mapError PyExc.jiraAPIError
      let _ ← jiraClientGetAttr "count_reopened_issues"
      let reopened_count := JiraClient_count_reopened_issues assigned_issues
      let lead_times := JiraClient_calculate_lead_times resolved_issues
      let block := jiraLeadTimesBlock lead_times
      pure
        { issues_assigned := assigned_issues.length
          issues_resolved := resolved_issues.length
          resolution_rate := jiraResolutionRate resolved_issues.length assigned_issues.length
          reopened := reopened_count
          quality_score := jiraQualityScore resolved_issues.length reopened_count
          lead_avg_hours := block.1
          lead_avg_days := block.2.1
          lead_resolved_count := block.2.2 }
  match body with
  | .ok result => .ok result
  | .error (.jiraAPIError m) => .error (.genericException ("Jira API error: " ++ m))
  | .error e =>
    .error (.genericException ("Failed to calculate Jira engineering metrics: " ++ pyExcStr e))

/-! ## Specification-side definitions

These follow the wording of the specification (for the refinement-style
claims) and are compared against the embedded source functions. -/

/-- A placeholder transition used only as the `getD` default below (its
`to_status` is null, which is in neither label set). -/
def defaultTransition : StatusTransition :=
  { date := "", from_status := none, to_status := none, author := none }

/-- Spec wording for reopened detection, over an issue's transition list
sorted by timestamp: the issue reaches a resolved-class state and *later*
transitions into an active-class state — i.e. some active-class transition
is preceded (strictly) by some resolved-class transition. -/
def reopenedAsSpecified (sorted_transitions : List StatusTransition) : Prop :=
  ∃ j, j < sorted_transitions.length ∧
    toStatusActive (sorted_transitions.getD j defaultTransition) = true ∧
    ∃ i, i < j ∧ toStatusResolved (sorted_transitions.getD i defaultTransition) = true

instance (s : List StatusTransition) : Decidable (reopenedAsSpecified s) := by
  unfold reopenedAsSpecified
  exact inferInstance

/-- Spec wording for the lead-time survivors: exactly those items having
both timestamps and a non-negative duration, each contributing
`hoursBetween(created, resolved)`. -/
def specSurvivorLeadTimes (issues : List JiraIssue) : List ℚ :=
  (issues.filter (fun issue =>
      issue.created.isSome && issue.resolutiondate.isSome &&
        decide (0 ≤ calculate_hours_between (issue.created.getD 0) (issue.resolutiondate.getD 0)))).map
    (fun issue => calculate_hours_between (issue.created.getD 0) (issue.resolutiondate.getD 0))

/-! ## Helper lemmas -/

/-- A resolved-class label is never an active-class label: the two fixed
sets of `_count_reopened_issues` are disjoint. -/
theorem resolved_active_disjoint (s : String) (h : isResolvedStatusName s = true) :
    isActiveStatusName s = false := by
  simp only [isResolvedStatusName, Bool.or_eq_true, beq_iff_eq] at h
  rcases h with (((h | h) | h) | h) | h <;> subst h <;> decide

/-- Transition-level version of the disjointness. -/
theorem toStatus_resolved_not_active (t : StatusTransition)
    (h : toStatusResolved t = true) : toStatusActive t = false := by
  unfold toStatusResolved at h
  unfold toStatusActive
  cases hs : t.to_status with
  | none => rfl
  | some s => rw [hs] at h; exact resolved_active_disjoint s h

/-- Once `was_resolved` is set, the scan reports the issue iff some later
transition is active-class. -/
theorem reopenedScan_true_eq_any (s : List StatusTransition) :
    reopenedScan true s = s.any toStatusActive := by
  induction s with
  | nil => rfl
  | cons t rest ih =>
    by_cases hr : toStatusResolved t = true
    · have ha : toStatusActive t = false := toStatus_resolved_not_active t hr
      simp [reopenedScan, hr, ha, ih]
    · simp only [Bool.not_eq_true] at hr
      by_cases ha : toStatusActive t = true
      · simp [reopenedScan, hr, ha]
      · simp only [Bool.not_eq_true] at ha
        simp [reopenedScan, hr, ha, ih]

/-- `List.any` through an explicit index. -/
theorem any_eq_true_iff_exists_getD (p : StatusTransition → Bool)
    (s : List StatusTransition) :
    s.any p = true ↔ ∃ j, j < s.length ∧ p (s.getD j defaultTransition) = true := by
  induction s with
  | nil => simp
  | cons t rest ih =>
    simp only [List.any_cons, Bool.or_eq_true, ih]
    constructor
    · rintro (h | ⟨j, hj, hp⟩)
      · exact ⟨0, by simp, by simpa using h⟩
      · exact ⟨j + 1, by simpa using hj, by simpa using hp⟩
    · rintro ⟨j, hj, hp⟩
      cases j with
      | zero => exact Or.inl (by simpa using hp)
      | succ j => exact Or.inr ⟨j, by simpa using hj, by simpa using hp⟩

/-- The scan starting with a clear flag reports the issue iff the sorted
transition list witnesses the specification's reopened condition. -/
theorem reopenedScan_false_iff_spec (s : List StatusTransition) :
    reopenedScan false s = true ↔ reopenedAsSpecified s := by
  induction s with
  | nil => simp [reopenedScan, reopenedAsSpecified]
  | cons t rest ih =>
    unfold reopenedAsSpecified
    by_cases hr : toStatusResolved t = true
    · have ha : toStatusActive t = false := toStatus_resolved_not_active t hr
      have hscan : reopenedScan false (t :: rest) = rest.any toStatusActive := by
        simp [reopenedScan, hr, reopenedScan_true_eq_any]
      rw [hscan, any_eq_true_iff_exists_getD]
      constructor
      · rintro ⟨j, hj, hp⟩
        exact ⟨j + 1, by simpa using hj, by simpa using hp,
          ⟨0, Nat.succ_pos j, by simpa using hr⟩⟩
      · rintro ⟨j, hj, hp, _i, _hi, _hri⟩
        cases j with
        | zero => simp only [List.getD_cons_zero] at hp; rw [hp] at ha; cases ha
        | succ j => exact ⟨j, by simpa using hj, by simpa using hp⟩
    · simp only [Bool.not_eq_true] at hr
      have hscan : reopenedScan false (t :: rest) = reopenedScan false rest := by
        simp [reopenedScan, hr]
      rw [hscan, ih]
      unfold reopenedAsSpecified
      constructor
      · rintro ⟨j, hj, hp, i, hi, hri⟩
        exact ⟨j + 1, by simpa using hj, by simpa using hp,
          ⟨i + 1, by simpa using hi, by simpa using hri⟩⟩
      · rintro ⟨j, hj, hp, i, hi, hri⟩
        cases i with
        | zero => simp only [List.getD_cons_zero] at hri; rw [hri] at hr; cases hr
        | succ i =>
          cases j with
          | zero => omega
          | succ j =>
            exact ⟨j, by simpa using hj, by simpa using hp,
              ⟨i, by simpa using hi, by simpa using hri⟩⟩

/-- Unfolding the counting fold of `_count_reopened_issues` into a filter
length, generalised over the running counter. -/
theorem count_reopened_foldl (issues : List JiraIssue) : ∀ n : ℕ,
    issues.foldl
      (fun reopened_count issue =>
        if reopenedScan false (sortedTransitions issue) then reopened_count + 1
        else reopened_count) n =
    n + (issues.filter (fun issue => reopenedScan false (sortedTransitions issue))).length := by
  induction issues with
  | nil => intro n; simp
  | cons issue rest ih =>
    intro n
    by_cases h : reopenedScan false (sortedTransitions issue) = true
    · simp only [List.foldl_cons, List.filter_cons, h, if_pos, ih]
      simp only [List.length_cons]
      omega
    · simp only [Bool.not_eq_true] at h
      simp [List.foldl_cons, List.filter_cons, h, ih]

/-- The lead-time list computed by `_calculate_lead_times` is exactly the
spec's survivor list: one non-negative duration per item having both
timestamps, in order. -/
theorem calculate_lead_times_eq_spec (issues : List JiraIssue) :
    JiraClient_calculate_lead_times issues = specSurvivorLeadTimes issues := by
  induction issues with
  | nil => rfl
  | cons issue rest ih =>
    unfold specSurvivorLeadTimes at ih ⊢
    cases hc : issue.created with
    | none => simp [JiraClient_calculate_lead_times, List.filter_cons, hc, ih]
    | some created_dt =>
      cases hr : issue.resolutiondate with
      | none => simp [JiraClient_calculate_lead_times, List.filter_cons, hc, hr, ih]
      | some resolved_dt =>
        by_cases hs : 0 ≤ calculate_hours_between created_dt resolved_dt
        · simp [JiraClient_calculate_lead_times, List.filter_cons, hc, hr, hs, ih]
        · simp [JiraClient_calculate_lead_times, List.filter_cons, hc, hr, hs, ih]

/-- Folding over a filtered list equals folding over the whole list when
every dropped element leaves the accumulator unchanged (the shape of every
skip-on-secondary-failure loop in the source). -/
theorem foldl_filter_of_skipped_id {α σ : Type} (l : List α) (p : α → Bool)
    (f : σ → α → σ) (h : ∀ x, x ∈ l → p x = false → ∀ s, f s x = s) :
    ∀ s, (l.filter p).foldl f s = l.foldl f s := by
  induction l with
  | nil => intro s; rfl
  | cons a l ih =>
    intro s
    have ih' := ih (fun x hx hpx => h x (List.mem_cons_of_mem a hx) hpx)
    by_cases hp : p a = true
    · simp only [List.filter_cons, hp, if_pos, List.foldl_cons]
      exact ih' (f s a)
    · simp only [Bool.not_eq_true] at hp
      simp only [List.filter_cons, hp, Bool.false_eq_true, if_neg, not_false_iff,
        List.foldl_cons]
      rw [h a (List.mem_cons_self a l) hp s]
      exact ih' s

/-! ## Pagination loop lemmas -/

/-- Loop step: an empty page ends the loop after recording the request. -/
theorem paginateLoop_eq_empty {α : Type} {fetch : ℕ → List α}
    {maxItems pageSize step marker : ℕ} {items : List α}
    (h1 : items.length < maxItems) (h2 : fetch marker = []) :
    paginateLoop fetch maxItems pageSize step marker items = (items, [marker]) := by
  rw [paginateLoop]
  simp [h1, h2]

theorem paginateLoop_eq_last {α : Type} {fetch : ℕ → List α}
    {maxItems pageSize step marker : ℕ} {items : List α}
    (h1 : items.length < maxItems) (h2 : ¬fetch marker = [])
    (h3 : (fetch marker).length < pageSize ∨ maxItems ≤ items.length + (fetch marker).length) :
    paginateLoop fetch maxItems pageSize step marker items =
      (items ++ fetch marker, [marker]) := by
  rw [paginateLoop]
  simp [h1, h2, h3]

theorem paginateLoop_eq_rec {α : Type} {fetch : ℕ → List α}
    {maxItems pageSize step marker : ℕ} {items : List α}
    (h1 : items.length < maxItems) (h2 : ¬fetch marker = [])
    (h3 : ¬((fetch marker).length < pageSize ∨ maxItems ≤ items.length + (fetch marker).length)) :
    paginateLoop fetch maxItems pageSize step marker items =
      ((paginateLoop fetch maxItems pageSize step (marker + step) (items ++ fetch marker)).1,
        marker ::
          (paginateLoop fetch maxItems pageSize step (marker + step) (items ++ fetch marker)).2) := by
  rw [paginateLoop]
  simp [h1, h2, h3]

theorem paginateLoop_eq_done {α : Type} {fetch : ℕ → List α}
    {maxItems pageSize step marker : ℕ} {items : List α}
    (h1 : ¬items.length < maxItems) :
    paginateLoop fetch maxItems pageSize step marker items = (items, []) := by
  rw [paginateLoop]
  simp [h1]

theorem paginateLoop_result_eq {α : Type} (fetch : ℕ → List α) (maxItems pageSize step : ℕ) :
    ∀ marker items, (paginateLoop fetch maxItems pageSize step marker items).1 =
      items ++ (((paginateLoop fetch maxItems pageSize step marker items).2).map fetch).flatten := by
  intro marker items
  induction marker, items using paginateLoop.induct fetch maxItems pageSize step with
  | case1 marker items hlt page_items hpi =>
    have h2 : fetch marker = [] := by simpa [List.isEmpty_iff] using hpi
    rw [paginateLoop_eq_empty hlt h2]
    simp [h2]
  | case2 marker items hlt page_items hpi hcond =>
    have h2 : ¬fetch marker = [] := by simpa [List.isEmpty_iff] using hpi
    have h3 : ((fetch marker).length < pageSize ∨
        maxItems ≤ items.length + (fetch marker).length) := hcond
    rw [paginateLoop_eq_last hlt h2 h3]
    simp
  | case3 marker items hlt page_items hpi hcond ih =>
    have h2 : ¬fetch marker = [] := by simpa [List.isEmpty_iff] using hpi
    have h3 : ¬((fetch marker).length < pageSize ∨
        maxItems ≤ items.length + (fetch marker).length) := hcond
    have ih' : (paginateLoop fetch maxItems pageSize step (marker + step)
        (items ++ fetch marker)).1 =
        (items ++ fetch marker) ++
          (((paginateLoop fetch maxItems pageSize step (marker + step)
            (items ++ fetch marker)).2).map fetch).flatten := ih
    rw [paginateLoop_eq_rec hlt h2 h3]
    simp only [List.map_cons, List.flatten_cons, ih']
    simp [List.append_assoc]
  | case4 marker items hlt =>
    rw [paginateLoop_eq_done hlt]
    simp

theorem paginateLoop_trace_markers {α : Type} (fetch : ℕ → List α) (maxItems pageSize step : ℕ) :
    ∀ marker items, (paginateLoop fetch maxItems pageSize step marker items).2 =
      List.range' marker ((paginateLoop fetch maxItems pageSize step marker items).2).length step := by
  intro marker items
  induction marker, items using paginateLoop.induct fetch maxItems pageSize step with
  | case1 marker items hlt page_items hpi =>
    have h2 : fetch marker = [] := by simpa [List.isEmpty_iff] using hpi
    rw [paginateLoop_eq_empty hlt h2]
    simp [List.range']
  | case2 marker items hlt page_items hpi hcond =>
    have h2 : ¬fetch marker = [] := by simpa [List.isEmpty_iff] using hpi
    have h3 : ((fetch marker).length < pageSize ∨
        maxItems ≤ items.length + (fetch marker).length) := hcond
    rw [paginateLoop_eq_last hlt h2 h3]
    simp [List.range']
  | case3 marker items hlt page_items hpi hcond ih =>
    have h2 : ¬fetch marker = [] := by simpa [List.isEmpty_iff] using hpi
    have h3 : ¬((fetch marker).length < pageSize ∨
        maxItems ≤ items.length + (fetch marker).length) := hcond
    have ih' : (paginateLoop fetch maxItems pageSize step (marker + step)
        (items ++ fetch marker)).2 =
        List.range' (marker + step)
          ((paginateLoop fetch maxItems pageSize step (marker + step)
            (items ++ fetch marker)).2).length step := ih
    rw [paginateLoop_eq_rec hlt h2 h3]
    simp only [List.length_cons, List.range'_succ]
    rw [← ih']
  | case4 marker items hlt =>
    rw [paginateLoop_eq_done hlt]
    simp [List.range']

theorem paginateLoop_request_bound {α : Type} (fetch : ℕ → List α)
    (maxItems pageSize step : ℕ) (hp : 0 < pageSize) :
    ∀ marker items, ((paginateLoop fetch maxItems pageSize step marker items).2).length ≤
      ceilDiv (maxItems - items.length) pageSize := by
  intro marker items
  induction marker, items using paginateLoop.induct fetch maxItems pageSize step with
  | case1 marker items hlt page_items hpi =>
    have h2 : fetch marker = [] := by simpa [List.isEmpty_iff] using hpi
    rw [paginateLoop_eq_empty hlt h2]
    unfold ceilDiv
    simp only [List.length_cons, List.length_nil]
    rw [Nat.le_div_iff_mul_le hp]
    omega
  | case2 marker items hlt page_items hpi hcond =>
    have h2 : ¬fetch marker = [] := by simpa [List.isEmpty_iff] using hpi
    have h3 : ((fetch marker).length < pageSize ∨
        maxItems ≤ items.length + (fetch marker).length) := hcond
    rw [paginateLoop_eq_last hlt h2 h3]
    unfold ceilDiv
    simp only [List.length_cons, List.length_nil]
    rw [Nat.le_div_iff_mul_le hp]
    omega
  | case3 marker items hlt page_items hpi hcond ih =>
    have h2 : ¬fetch marker = [] := by simpa [List.isEmpty_iff] using hpi
    have h3 : ¬((fetch marker).length < pageSize ∨
        maxItems ≤ items.length + (fetch marker).length) := hcond
    have harith := h3
    push_neg at harith
    have ih' : ((paginateLoop fetch maxItems pageSize step (marker + step)
        (items ++ fetch marker)).2).length ≤
        ceilDiv (maxItems - (items ++ fetch marker).length) pageSize := ih
    rw [paginateLoop_eq_rec hlt h2 h3]
    simp only [List.length_cons]
    unfold ceilDiv at ih' ⊢
    rw [List.length_append] at ih'
    have hL : pageSize ≤ (fetch marker).length := harith.1
    have hcap : items.length + (fetch marker).length < maxItems := harith.2
    have hstep : (maxItems - (items.length + (fetch marker).length)) + pageSize - 1 ≤
        maxItems - items.length - 1 := by omega
    have hdiv : ((maxItems - (items.length + (fetch marker).length)) + pageSize - 1) / pageSize ≤
        (maxItems - items.length - 1) / pageSize := Nat.div_le_div_right hstep
    have hplus : (maxItems - items.length - 1 + pageSize) / pageSize =
        (maxItems - items.length - 1) / pageSize + 1 := Nat.add_div_right _ hp
    have heq : maxItems - items.length - 1 + pageSize =
        maxItems - items.length + pageSize - 1 := by omega
    rw [heq] at hplus
    rw [hplus]
    omega
  | case4 marker items hlt =>
    rw [paginateLoop_eq_done hlt]
    simp

theorem paginateLoop_nonfinal_full {α : Type} (fetch : ℕ → List α)
    (maxItems pageSize step : ℕ) :
    ∀ marker items pre x post,
      (paginateLoop fetch maxItems pageSize step marker items).2 = pre ++ x :: post →
      post ≠ [] →
      pageSize ≤ (fetch x).length ∧
        items.length + (((pre ++ [x]).map fetch).flatten).length < maxItems := by
  intro marker items
  induction marker, items using paginateLoop.induct fetch maxItems pageSize step with
  | case1 marker items hlt page_items hpi =>
    intro pre x post htr hpost
    have h2 : fetch marker = [] := by simpa [List.isEmpty_iff] using hpi
    rw [paginateLoop_eq_empty hlt h2] at htr
    have hlen := congrArg List.length htr.symm
    simp only [List.length_append, List.length_cons, List.length_nil] at hlen
    have : post.length = 0 := by omega
    exact absurd (List.length_eq_zero.mp this) hpost
  | case2 marker items hlt page_items hpi hcond =>
    intro pre x post htr hpost
    have h2 : ¬fetch marker = [] := by simpa [List.isEmpty_iff] using hpi
    have h3 : ((fetch marker).length < pageSize ∨
        maxItems ≤ items.length + (fetch marker).length) := hcond
    rw [paginateLoop_eq_last hlt h2 h3] at htr
    have hlen := congrArg List.length htr.symm
    simp only [List.length_append, List.length_cons, List.length_nil] at hlen
    have : post.length = 0 := by omega
    exact absurd (List.length_eq_zero.mp this) hpost
  | case3 marker items hlt page_items hpi hcond ih =>
    intro pre x post htr hpost
    have h2 : ¬fetch marker = [] := by simpa [List.isEmpty_iff] using hpi
    have h3 : ¬((fetch marker).length < pageSize ∨
        maxItems ≤ items.length + (fetch marker).length) := hcond
    have harith := h3
    push_neg at harith
    rw [paginateLoop_eq_rec hlt h2 h3] at htr
    simp only at htr
    cases pre with
    | nil =>
      simp only [List.nil_append, List.cons.injEq] at htr
      obtain ⟨hxm, _⟩ := htr
      subst hxm
      refine ⟨harith.1, ?_⟩
      simp only [List.nil_append, List.map_cons, List.map_nil, List.flatten_cons,
        List.flatten_nil, List.append_nil]
      exact harith.2
    | cons y pre' =>
      simp only [List.cons_append, List.cons.injEq] at htr
      obtain ⟨hym, htr'⟩ := htr
      subst hym
      have ih' : ∀ pre x post,
          (paginateLoop fetch maxItems pageSize step (marker + step)
            (items ++ fetch marker)).2 = pre ++ x :: post → post ≠ [] →
          pageSize ≤ (fetch x).length ∧
            (items ++ fetch marker).length + (((pre ++ [x]).map fetch).flatten).length <
              maxItems := ih
      have hres := ih' pre' x post htr' hpost
      refine ⟨hres.1, ?_⟩
      have hlen2 := hres.2
      rw [List.length_append] at hlen2
      simp only [List.cons_append, List.map_cons, List.flatten_cons, List.length_append]
      omega
  | case4 marker items hlt =>
    intro pre x post htr _hpost
    rw [paginateLoop_eq_done hlt] at htr
    have hlen := congrArg List.length htr.symm
    simp only [List.length_append, List.length_cons, List.length_nil] at hlen
    exact absurd hlen (by omega)

/-! ## Claim C2 — reopened-issue detection -/

/-- **C2.** For every list of issues, the reopened counter computed by
`_count_reopened_issues` equals the number of issues whose transition
sequence, sorted by timestamp, reaches a resolved-class state and later
transitions into an active-class state; counting by filter length makes each
such issue contribute exactly 1 (however many resolve/reopen cycles it has)
and every other issue — in particular one with no resolved-class transition
— contribute 0; labels outside both sets are inert by
`reopenedAsSpecified`'s shape. -/
theorem claim_C2_reopened_count (issues : List JiraIssue) :
    JiraClient_count_reopened_issues issues =
      (issues.filter (fun issue =>
        decide (reopenedAsSpecified (sortedTransitions issue)))).length := by
  unfold JiraClient_count_reopened_issues
  rw [count_reopened_foldl issues 0]
  simp only [Nat.zero_add]
  congr 1
  apply List.filter_congr
  intro issue _
  cases h : reopenedScan false (sortedTransitions issue) with
  | true =>
    have hs := (reopenedScan_false_iff_spec _).mp h
    simp [hs]
  | false =>
    have hs : ¬reopenedAsSpecified (sortedTransitions issue) := fun hc => by
      rw [(reopenedScan_false_iff_spec _).mpr hc] at h
      cases h
    simp [hs]

/-- A history recording a single status transition at the given timestamp
(used in the concrete checks below). -/
def statusChangeAt (date : String) (fromS toS : String) : JiraHistory :=
  { created := some date, authorEmail := some "dev@example.com",
    items := [{ field := "status", fromString := some fromS, toString := some toS }] }

/-- An issue whose transitions are Open→Done→Open: counted once. -/
def issueOpenDoneOpen : JiraIssue :=
  { created := none, resolutiondate := none,
    histories := [statusChangeAt "2024-01-01" "Open" "In Progress",
                  statusChangeAt "2024-01-02" "In Progress" "Done",
                  statusChangeAt "2024-01-03" "Done" "Open"] }

/-- An issue that flip-flops twice (…Done→Open→Done→Open): still once. -/
def issueFlipFlop : JiraIssue :=
  { created := none, resolutiondate := none,
    histories := [statusChangeAt "2024-02-01" "Open" "Done",
                  statusChangeAt "2024-02-02" "Done" "Open",
                  statusChangeAt "2024-02-03" "Open" "Done",
                  statusChangeAt "2024-02-04" "Done" "Open"] }

/-- An issue with no resolved-class transition: never counted. -/
def issueNeverResolved : JiraIssue :=
  { created := none, resolutiondate := none,
    histories := [statusChangeAt "2024-03-01" "Open" "In Progress",
                  statusChangeAt "2024-03-02" "In Progress" "In Review"] }

example : JiraClient_count_reopened_issues [issueOpenDoneOpen] = 1 := by decide
example : JiraClient_count_reopened_issues [issueFlipFlop] = 1 := by decide
example : JiraClient_count_reopened_issues [issueNeverResolved] = 0 := by decide
example :
    JiraClient_count_reopened_issues [issueOpenDoneOpen, issueFlipFlop, issueNeverResolved] =
      2 := by decide

/-! ## Claim C3 — lead-time average over survivors -/

/-- **C3.** For every issue list, the lead-time list `_calculate_lead_times`
produces is exactly the spec's survivor list (one non-negative
`hoursBetween(created, resolved)` per item having both timestamps; an item
whose end precedes its start is dropped, not clamped); the metric
`avg_lead_time_hours` is `None` exactly on an empty survivor list and
otherwise the arithmetic mean of the survivors; and the reported
`resolved_count` is the survivor count, so zero items is distinguishable
from zero duration. -/
theorem claim_C3_lead_time_average (issues : List JiraIssue) :
    JiraClient_calculate_lead_times issues = specSurvivorLeadTimes issues ∧
    (jiraAvgLeadTime (JiraClient_calculate_lead_times issues) = none ↔
      specSurvivorLeadTimes issues = []) ∧
    (∀ q, jiraAvgLeadTime (JiraClient_calculate_lead_times issues) = some q →
      q * (specSurvivorLeadTimes issues).length = (specSurvivorLeadTimes issues).sum) ∧
    (jiraLeadTimesBlock (JiraClient_calculate_lead_times issues)).2.2 =
      (specSurvivorLeadTimes issues).length := by
  have heq := calculate_lead_times_eq_spec issues
  refine ⟨heq, ?_, ?_, ?_⟩
  · rw [heq]
    unfold jiraAvgLeadTime
    by_cases he : (specSurvivorLeadTimes issues).isEmpty
    · simp only [he, if_pos]
      simp only [List.isEmpty_iff] at he
      simp [he]
    · simp only [he, Bool.false_eq_true, if_neg, not_false_iff]
      simp only [List.isEmpty_iff] at he
      simp [he]
  · intro q hq
    rw [heq] at hq
    unfold jiraAvgLeadTime at hq
    by_cases he : (specSurvivorLeadTimes issues).isEmpty
    · rw [if_pos he] at hq
      cases hq
    · rw [if_neg he] at hq
      have hlen : (specSurvivorLeadTimes issues).length ≠ 0 := by
        simp only [List.isEmpty_iff] at he
        simpa [List.length_eq_zero] using he
      have hlenq : ((specSurvivorLeadTimes issues).length : ℚ) ≠ 0 := by
        exact_mod_cast hlen
      have hq' : q = (specSurvivorLeadTimes issues).sum /
          (specSurvivorLeadTimes issues).length := by
        injection hq with h
        exact h.symm
      rw [hq']
      field_simp
  · unfold jiraLeadTimesBlock
    simp only [heq]

/-- The spec's lead-time example: one issue resolved 5 hours after creation
and one resolved 15 hours after creation (timestamps in epoch seconds). -/
def c3ExampleIssues : List JiraIssue :=
  [{ created := some 0, resolutiondate := some 18000, histories := [] },
   { created := some 0, resolutiondate := some 54000, histories := [] }]

/-- Witness for C3 at the spec's example: the mean clause instantiated at
`q = 10` (discharged by evaluation) gives `10 * 2 = 5 + 15`, and the
survivor count evaluates to 2. -/
theorem claim_C3_witness :
    (10 : ℚ) * (specSurvivorLeadTimes c3ExampleIssues).length =
      (specSurvivorLeadTimes c3ExampleIssues).sum ∧
    (specSurvivorLeadTimes c3ExampleIssues).length = 2 := by
  refine ⟨(claim_C3_lead_time_average c3ExampleIssues).2.2.1 10 ?_, ?_⟩
  · norm_num [c3ExampleIssues, JiraClient_calculate_lead_times, calculate_hours_between,
      jiraAvgLeadTime]
  · norm_num [c3ExampleIssues, specSurvivorLeadTimes, calculate_hours_between]

/-! ## Claim C10 — a zero mean is reported like the no-survivors case -/

/-- **C10.** When the survivor list is non-empty but its arithmetic mean is
exactly 0 hours, the reported `average_hours` and `average_days` are `None`
— the same representation as the no-survivors case, because the reporting
expressions test Python truthiness of the mean and `0.0` is falsy — while
the reported count (`resolved_count` / `total_merged`) stays the non-zero
survivor count.  This holds for both the Jira lead-time block and the GitHub
cycle-time block. -/
theorem claim_C10_zero_mean_reported_none (lead_times : List ℚ)
    (h1 : lead_times ≠ [])
    (h2 : jiraAvgLeadTime lead_times = some 0)
    (h3 : githubAvgCycleTime lead_times = some 0) :
    (jiraLeadTimesBlock lead_times).1 = none ∧
    (jiraLeadTimesBlock lead_times).2.1 = none ∧
    (jiraLeadTimesBlock lead_times).2.2 = lead_times.length ∧
    (githubCycleTimesBlock lead_times).1 = none ∧
    (githubCycleTimesBlock lead_times).2.1 = none ∧
    (githubCycleTimesBlock lead_times).2.2 = lead_times.length ∧
    0 < lead_times.length := by
  unfold jiraLeadTimesBlock githubCycleTimesBlock
  rw [h2, h3]
  refine ⟨by simp, by simp, rfl, by simp, by simp, rfl, ?_⟩
  exact List.length_pos.mpr h1

/-- Witness for C10: two survivors that each took zero hours. -/
theorem claim_C10_witness :
    (jiraLeadTimesBlock [0, 0]).1 = none ∧
    (jiraLeadTimesBlock [0, 0]).2.1 = none ∧
    (jiraLeadTimesBlock [0, 0]).2.2 = ([0, 0] : List ℚ).length ∧
    (githubCycleTimesBlock [0, 0]).1 = none ∧
    (githubCycleTimesBlock [0, 0]).2.1 = none ∧
    (githubCycleTimesBlock [0, 0]).2.2 = ([0, 0] : List ℚ).length ∧
    0 < ([0, 0] : List ℚ).length :=
  claim_C10_zero_mean_reported_none [0, 0] (by simp)
    (by norm_num [jiraAvgLeadTime]) (by norm_num [githubAvgCycleTime])

/-! ## Claim C4 — created/updated deduplication -/

/-- On a duplicate-free key list, filtering out the keys of a set and taking
the length computes the cardinality of the set difference. -/
theorem filter_not_mem_length_eq_sdiff_card (l : List (Option String))
    (C : Finset (Option String)) (h : l.Nodup) :
    (l.filter (fun a => decide (a ∉ C))).length = (l.toFinset \ C).card := by
  induction l with
  | nil => simp
  | cons a l ih =>
    rw [List.nodup_cons] at h
    obtain ⟨ha, hl⟩ := h
    rw [List.toFinset_cons]
    by_cases hc : a ∈ C
    · rw [Finset.insert_sdiff_of_mem _ hc]
      have hdec : (decide (a ∉ C)) = false := by simp [hc]
      rw [List.filter_cons, hdec]
      simp only [Bool.false_eq_true, if_neg, not_false_iff]
      exact ih hl
    · rw [Finset.insert_sdiff_of_not_mem _ hc]
      have hnotin : a ∉ l.toFinset \ C := by
        simp only [Finset.mem_sdiff, List.mem_toFinset]
        intro hcontra
        exact ha hcontra.1
      rw [Finset.card_insert_of_not_mem hnotin]
      have hdec : (decide (a ∉ C)) = true := by simp [hc]
      rw [List.filter_cons, hdec]
      simp only [if_pos, List.length_cons]
      rw [ih hl]

/-- **C4.** For every created list and updated list whose page ids are
pairwise distinct (an identity-keyed set, as the claim assumes), the
updated-bucket count computed by `confluence_engineer_activity` equals the
cardinality of the id-set difference updated-minus-created: a page in both
sets is counted only as created and never in the updated bucket. -/
theorem claim_C4_dedup_by_set_difference (created_pages updated_pages : List ConfluencePage)
    (h : (updated_pages.map (fun page => page.id)).Nodup) :
    confluencePagesUpdatedCount created_pages updated_pages =
      ((updated_pages.map (fun page => page.id)).toFinset \
        (created_pages.map (fun page => page.id)).toFinset).card := by
  unfold confluencePagesUpdatedCount
  rw [← filter_not_mem_length_eq_sdiff_card _ _ h]
  rw [List.filter_map]
  rw [List.length_map]
  rfl

/-- Witness for C4 at the spec's example: created `{A, B}`, updated
`{B, C}`; the updated-only count is 1. -/
theorem claim_C4_witness :
    confluencePagesUpdatedCount
      [{ id := some "A", modifierEmail := none, modifierAccountId := none, spaceName := none },
       { id := some "B", modifierEmail := none, modifierAccountId := none, spaceName := none }]
      [{ id := some "B", modifierEmail := none, modifierAccountId := none, spaceName := none },
       { id := some "C", modifierEmail := none, modifierAccountId := none, spaceName := none }] =
      1 := by
  have h := claim_C4_dedup_by_set_difference
    [{ id := some "A", modifierEmail := none, modifierAccountId := none, spaceName := none },
     { id := some "B", modifierEmail := none, modifierAccountId := none, spaceName := none }]
    [{ id := some "B", modifierEmail := none, modifierAccountId := none, spaceName := none },
     { id := some "C", modifierEmail := none, modifierAccountId := none, spaceName := none }]
    (by decide)
  rw [h]
  decide

/-! ## Claim C8 — division guards in the metric arithmetic -/

/-- **C8.** The weekly-rate denominator is `max(days_in_range / 7, 1)`: it
is exactly 1 on every zero-length range (`from == to` gives `d - d = 0`
days) and at least 1 always, so the rate divisions never divide by zero; and
every guarded ratio — resolution rate, quality score, merge rate, review
participation, engagement ratio — returns 0 when its denominator is zero
instead of raising.  (Ratios are exact rationals here; the `NaN`-freedom of
the claim is the absence of any 0/0 evaluation, which the guards ensure.) -/
theorem claim_C8_division_guards :
    (∀ d : ℤ, confluenceWeeksPeriod (d - d) = 1) ∧
    (∀ d : ℤ, 1 ≤ confluenceWeeksPeriod d) ∧
    (∀ resolved : ℕ, jiraResolutionRate resolved 0 = 0) ∧
    (∀ reopened : ℕ, jiraQualityScore 0 reopened = 0) ∧
    (∀ merged : ℕ, githubMergeRate merged 0 = 0) ∧
    (∀ reviews : ℕ, githubReviewParticipation reviews 0 = 0) ∧
    (∀ comments : ℕ, confluenceEngagementRatio comments 0 0 = 0) := by
  refine ⟨?_, ?_, ?_, ?_, ?_, ?_, ?_⟩
  · intro d
    simp [confluenceWeeksPeriod]
  · intro d
    unfold confluenceWeeksPeriod
    by_cases hd : 0 ≤ d
    · rw [if_pos hd]
      exact le_max_right _ _
    · rw [if_neg hd]
  · intro resolved
    simp [jiraResolutionRate]
  · intro reopened
    simp [jiraQualityScore]
  · intro merged
    simp [githubMergeRate]
  · intro reviews
    simp [githubReviewParticipation]
  · intro comments
    simp [confluenceEngagementRatio]

/-! ## Claim C9 — updated-by-subject post-filter -/

/-- **C9.** Every item returned by `search_updated_content_by_user` has a
last-modifier identity equal to the subject: the unfiltered CQL result is
post-filtered in-process, so no item last modified by someone else appears
in a successful result. -/
theorem claim_C9_updated_post_filter (user : String)
    (search_result : Except APIErrorVal (List ConfluencePage))
    (returned : List ConfluencePage)
    (hok : ConfluenceClient_search_updated_content_by_user user search_result =
      .ok returned) :
    ∀ item ∈ returned,
      item.modifierEmail = some user ∨ item.modifierAccountId = some user := by
  intro item hmem
  cases search_result with
  | error e =>
    have hok' : (Except.error e : Except APIErrorVal (List ConfluencePage)) =
        .ok returned := hok
    cases hok'
  | ok content_items =>
    have hok' : (Except.ok (content_items.filter (fun it =>
        it.modifierEmail == some user || it.modifierAccountId == some user)) :
          Except APIErrorVal (List ConfluencePage)) =
        .ok returned := hok
    have hfilter := Except.ok.inj hok'
    rw [← hfilter] at hmem
    have hpred := List.of_mem_filter hmem
    simp only [Bool.or_eq_true, beq_iff_eq] at hpred
    exact hpred

/-- Witness for C9: a two-page search result in which only one page was last
modified by the subject; the returned list is that page, and the theorem
applies to it. -/
theorem claim_C9_witness :
    ({ id := some "p1", modifierEmail := some "alice@example.com",
       modifierAccountId := none, spaceName := none } : ConfluencePage).modifierEmail =
        some "alice@example.com" ∨
    ({ id := some "p1", modifierEmail := some "alice@example.com",
       modifierAccountId := none, spaceName := none } : ConfluencePage).modifierAccountId =
        some "alice@example.com" := by
  refine claim_C9_updated_post_filter "alice@example.com"
    (.ok [{ id := some "p1", modifierEmail := some "alice@example.com",
            modifierAccountId := none, spaceName := none },
          { id := some "p2", modifierEmail := some "bob@example.com",
            modifierAccountId := none, spaceName := none }])
    [{ id := some "p1", modifierEmail := some "alice@example.com",
       modifierAccountId := none, spaceName := none }]
    rfl _ (by decide)

/-! ## Claim C7 — secondary per-item fetch failures are isolated -/

/-- **C7.** For each of the three secondary-fetch loops (reviews per PR,
comments per page, detail per PR): a transport error from the primary search
propagates unchanged to the caller; a successful primary search always
yields a successful result (the loop itself raises nothing); and when the
secondary fetch for one item key fails, the computation equals the one over
the item list with that item removed — only the failing item is excluded,
the remaining items' contributions are unaffected. -/
theorem claim_C7_secondary_failure_isolation :
    (∀ (login : String) (from_dt to_dt : ℚ) fetch_reviews (e : APIErrorVal),
        GitHubClient_search_reviews_by_user login from_dt to_dt (.error e) fetch_reviews =
          .error e) ∧
    (∀ (login : String) (from_dt to_dt : ℚ) prs fetch_reviews,
        ∃ reviews, GitHubClient_search_reviews_by_user login from_dt to_dt
          (.ok prs) fetch_reviews = .ok reviews) ∧
    (∀ (login : String) (from_dt to_dt : ℚ) prs fetch_reviews key (e : APIErrorVal),
        fetch_reviews key = .error e →
        GitHubClient_search_reviews_by_user login from_dt to_dt (.ok prs) fetch_reviews =
          GitHubClient_search_reviews_by_user login from_dt to_dt
            (.ok (prs.filter (fun pr => decide (prKey pr ≠ key)))) fetch_reviews) ∧
    (∀ (user : String) (from_dt to_dt : ℚ) fetch_comments (e : APIErrorVal),
        ConfluenceClient_search_comments_by_user user from_dt to_dt (.error e)
          fetch_comments = .error e) ∧
    (∀ (user : String) (from_dt to_dt : ℚ) pages fetch_comments page_id (e : APIErrorVal),
        fetch_comments page_id = .error e →
        ConfluenceClient_search_comments_by_user user from_dt to_dt (.ok pages)
          fetch_comments =
          ConfluenceClient_search_comments_by_user user from_dt to_dt
            (.ok (pages.filter (fun page => decide (page.id ≠ some page_id))))
            fetch_comments) ∧
    (∀ prs fetch_details key (e : APIErrorVal),
        fetch_details key = .error e →
        githubAnalyzePRDetails prs fetch_details =
          githubAnalyzePRDetails (prs.filter (fun pr => decide (prKey pr ≠ key)))
            fetch_details) := by
  refine ⟨?_, ?_, ?_, ?_, ?_, ?_⟩
  · intro login from_dt to_dt fetch_reviews e
    rfl
  · intro login from_dt to_dt prs fetch_reviews
    exact ⟨_, rfl⟩
  · intro login from_dt to_dt prs fetch_reviews key e he
    show Except.ok (prs.foldl (reviewsPRStep login from_dt to_dt fetch_reviews) []) =
      Except.ok ((prs.filter (fun pr => decide (prKey pr ≠ key))).foldl
        (reviewsPRStep login from_dt to_dt fetch_reviews) [])
    refine congrArg Except.ok ?_
    refine (foldl_filter_of_skipped_id prs _ _ ?_ []).symm
    intro pr _ hp s
    have hk : prKey pr = key := by simpa using hp
    unfold reviewsPRStep
    rw [hk, he]
    cases pr.isPullRequest <;> simp
  · intro user from_dt to_dt fetch_comments e
    rfl
  · intro user from_dt to_dt pages fetch_comments page_id e he
    show Except.ok (pages.foldl
        (commentsPageStep user from_dt to_dt fetch_comments) []) =
      Except.ok ((pages.filter (fun page => decide (page.id ≠ some page_id))).foldl
        (commentsPageStep user from_dt to_dt fetch_comments) [])
    refine congrArg Except.ok ?_
    refine (foldl_filter_of_skipped_id pages _ _ ?_ []).symm
    intro page _ hp s
    have hk : page.id = some page_id := by simpa using hp
    unfold commentsPageStep
    rw [hk]
    simp [he]
  · intro prs fetch_details key e he
    unfold githubAnalyzePRDetails
    refine (foldl_filter_of_skipped_id prs _ _ ?_ (0, [])).symm
    intro pr _ hp s
    have hk : prKey pr = key := by simpa using hp
    unfold prDetailStep
    rw [hk, he]
    cases pr.isPullRequest <;> simp

/-- A review-fetch oracle that fails on PR #1 of octo/repo and succeeds
elsewhere with one matching review. -/
def c7WitnessFetch : String × String × ℕ → Except APIErrorVal (List GitHubReview) :=
  fun key =>
    if key = ("octo", "repo", 1) then .error (.githubAPIErrorLocal "boom")
    else .ok [{ userLogin := some "alice", submittedAt := some 50 }]

/-- Witness for C7: with the secondary fetch failing on PR #1, the review
search over both PRs equals the search over the list with PR #1 removed. -/
theorem claim_C7_witness :
    GitHubClient_search_reviews_by_user "alice" 0 100
      (.ok [{ isPullRequest := true, repoOwner := "octo", repoName := "repo", number := 1 },
            { isPullRequest := true, repoOwner := "octo", repoName := "repo", number := 2 }])
      c7WitnessFetch =
    GitHubClient_search_reviews_by_user "alice" 0 100
      (.ok (([{ isPullRequest := true, repoOwner := "octo", repoName := "repo", number := 1 },
              { isPullRequest := true, repoOwner := "octo", repoName := "repo", number := 2 }] :
          List GitHubPR).filter (fun pr => decide (prKey pr ≠ ("octo", "repo", 1)))))
      c7WitnessFetch :=
  claim_C7_secondary_failure_isolation.2.2.1 "alice" 0 100
    [{ isPullRequest := true, repoOwner := "octo", repoName := "repo", number := 1 },
     { isPullRequest := true, repoOwner := "octo", repoName := "repo", number := 2 }]
    c7WitnessFetch ("octo", "repo", 1) (.githubAPIErrorLocal "boom") rfl

/-! ## Claim C5 — rate-limit propagation -/

/-- Header lookup only depends on the lower-cased key. -/
theorem headersLookup_key_congr (hs : List (String × String)) (k k' : String)
    (h : pyStrToLower k = pyStrToLower k') :
    headersLookup hs k = headersLookup hs k' := by
  unfold headersLookup
  simp only [h]

/-- **C5 counterexample.** The code-host and ticket-tracker transports do
*not* raise a taxonomy `RateLimitError` on 429: with status 429 and
`Retry-After: 30`, each raises its local plain exception class with a fixed
message, which is not a `rateLimitError` and carries no retry-after value —
refuting the claim's "every provider transport". -/
theorem claim_C5_counterexample :
    GitHubClient_handle_response
        { status := 429, headers := [("Retry-After", "30")], text := "" } =
      .error (.githubAPIErrorLocal
        "Rate limit exceeded. Please wait before making more requests.") ∧
    isRateLimitOutcome (GitHubClient_handle_response
        { status := 429, headers := [("Retry-After", "30")], text := "" }) = false ∧
    retryAfterOfOutcome (GitHubClient_handle_response
        { status := 429, headers := [("Retry-After", "30")], text := "" }) = none ∧
    JiraClient_handle_response
        { status := 429, headers := [("Retry-After", "30")], text := "" } =
      .error (.jiraAPIErrorLocal
        "Rate limit exceeded. Please wait before making more requests.") ∧
    isRateLimitOutcome (JiraClient_handle_response
        { status := 429, headers := [("Retry-After", "30")], text := "" }) = false :=
  ⟨rfl, rfl, rfl, rfl, rfl⟩

/-- **C5 amended.** For every response with status 429 whose (numeric)
retry-after header is `"30"`: the wiki-provider transport raises the
taxonomy `RateLimitError` carrying the provider name and `retryAfter == 30`,
and the shared factory `create_api_error_from_response` builds the same
error for any provider name; the code-host and ticket-tracker transports
instead raise their local provider exception carrying only a message.  No
transport retries — each maps one response to one outcome. -/
theorem claim_C5_rate_limit_amended (response : HTTPResponse) (api_name : String)
    (hstatus : response.status = 429)
    (hheader : headersLookup response.headers "retry-after" = some "30") :
    ConfluenceClient_handle_response response =
      .error (.rateLimitError "Confluence" (some 30)) ∧
    create_api_error_from_response api_name response =
      .rateLimitError api_name (some 30) ∧
    GitHubClient_handle_response response =
      .error (.githubAPIErrorLocal
        "Rate limit exceeded. Please wait before making more requests.") ∧
    JiraClient_handle_response response =
      .error (.jiraAPIErrorLocal
        "Rate limit exceeded. Please wait before making more requests.") := by
  have h30 : pyIntOfString "30" = some 30 := by decide
  refine ⟨?_, ?_, ?_, ?_⟩
  · unfold ConfluenceClient_handle_response
    rw [if_pos hstatus, hheader]
    simp [Option.bind, h30]
  · unfold create_api_error_from_response
    rw [if_neg (by omega : ¬response.status = 401),
      if_neg (by omega : ¬response.status = 403),
      if_neg (by omega : ¬response.status = 404), if_pos hstatus]
    rw [headersLookup_key_congr _ "Retry-After" "retry-after" (by decide), hheader]
    simp [h30]
  · unfold GitHubClient_handle_response
    rw [if_pos hstatus]
  · unfold JiraClient_handle_response
    rw [if_pos hstatus]

/-- Witness for the amended C5 at the concrete response of the spec's test
vector (status 429, `Retry-After: 30`). -/
theorem claim_C5_witness :
    ConfluenceClient_handle_response
        { status := 429, headers := [("Retry-After", "30")], text := "" } =
      .error (.rateLimitError "Confluence" (some 30)) ∧
    create_api_error_from_response "GitHub"
        { status := 429, headers := [("Retry-After", "30")], text := "" } =
      .rateLimitError "GitHub" (some 30) :=
  have h := claim_C5_rate_limit_amended
    { status := 429, headers := [("Retry-After", "30")], text := "" } "GitHub"
    rfl (by decide)
  ⟨h.1, h.2.1⟩

/-! ## Claim C6 — pagination -/

/-- **C6 amended.** For the code-host and wiki providers' paginated searches
(the two pagination loops in the source), for every fetch oracle and cap:
the returned list has at most `cap` items; at most `ceil(cap / page_size)`
requests are issued (page size `min(100, cap)` resp. `min(50, cap)`); the
requested page markers increment from the provider's start (pages 1,2,…
resp. offsets 0, limit, 2·limit, …); and before every non-final request the
previous page came back full and the accumulated count was still below the
cap — so the loop stops as soon as a page comes back short or the cap is
reached.  The ticket-tracker search (`JiraClient.search_issues`), by
contrast, issues exactly one request with `startAt = 0` and
`maxResults = min(cap, 100)` and has no pagination loop. -/
theorem claim_C6_pagination_amended {α : Type} (fetch : ℕ → List α)
    (fetch_jira : ℕ × ℕ → List α) (cap : ℕ) :
    (GitHubClient_paginate_search fetch cap).length ≤ cap ∧
    (GitHubClient_paginate_search_requests fetch cap).length ≤ ceilDiv cap (min 100 cap) ∧
    GitHubClient_paginate_search_requests fetch cap =
      List.range' 1 (GitHubClient_paginate_search_requests fetch cap).length 1 ∧
    (∀ pre x post,
      GitHubClient_paginate_search_requests fetch cap = pre ++ x :: post → post ≠ [] →
      min 100 cap ≤ (fetch x).length ∧ (((pre ++ [x]).map fetch).flatten).length < cap) ∧
    (ConfluenceClient_paginate_content fetch cap).length ≤ cap ∧
    (ConfluenceClient_paginate_content_requests fetch cap).length ≤
      ceilDiv cap (min 50 cap) ∧
    ConfluenceClient_paginate_content_requests fetch cap =
      List.range' 0 (ConfluenceClient_paginate_content_requests fetch cap).length
        (min 50 cap) ∧
    (∀ pre x post,
      ConfluenceClient_paginate_content_requests fetch cap = pre ++ x :: post →
      post ≠ [] →
      min 50 cap ≤ (fetch x).length ∧ (((pre ++ [x]).map fetch).flatten).length < cap) ∧
    (JiraClient_search_issues fetch_jira cap).2 = [(0, min cap 100)] := by
  refine ⟨?_, ?_, ?_, ?_, ?_, ?_, ?_, ?_, rfl⟩
  · exact List.length_take_le cap _
  · by_cases hcap : cap = 0
    · subst hcap
      unfold GitHubClient_paginate_search_requests
      rw [paginateLoop_eq_done (by simp)]
      simp
    · have hp : 0 < min 100 cap := by omega
      have h := paginateLoop_request_bound fetch cap (min 100 cap) 1 hp 1 []
      simpa [GitHubClient_paginate_search_requests] using h
  · exact paginateLoop_trace_markers fetch cap (min 100 cap) 1 1 []
  · intro pre x post htr hpost
    have h := paginateLoop_nonfinal_full fetch cap (min 100 cap) 1 1 [] pre x post htr hpost
    simpa using h
  · exact List.length_take_le cap _
  · by_cases hcap : cap = 0
    · subst hcap
      unfold ConfluenceClient_paginate_content_requests
      rw [paginateLoop_eq_done (by simp)]
      simp
    · have hp : 0 < min 50 cap := by omega
      have h := paginateLoop_request_bound fetch cap (min 50 cap) (min 50 cap) hp 0 []
      simpa [ConfluenceClient_paginate_content_requests] using h
  · exact paginateLoop_trace_markers fetch cap (min 50 cap) (min 50 cap) 0 []
  · intro pre x post htr hpost
    have h := paginateLoop_nonfinal_full fetch cap (min 50 cap) (min 50 cap) 0 [] pre x post
      htr hpost
    simpa using h

/-- **C6 counterexample.** The claim covers "every provider's paginated
search", including the ticket-tracker's (`JiraClient.search_issues` is among
its cited sources); but with a cap of 200 and a server returning a full page
of 100 items (exactly the requested `maxResults = min(200, 100)`), the
ticket-tracker search makes exactly one request and returns 100 items — it
does not keep requesting while the page is full and the accumulated count
(100) is below the cap (200), because it has no pagination loop. -/
theorem claim_C6_counterexample :
    (JiraClient_search_issues (fun _ => List.replicate 100 (0 : ℕ)) 200).2 = [(0, 100)] ∧
    ((fun (_ : ℕ × ℕ) => List.replicate 100 (0 : ℕ)) (0, 100)).length = min 200 100 ∧
    (JiraClient_search_issues (fun _ => List.replicate 100 (0 : ℕ)) 200).1.length = 100 ∧
    100 < 200 ∧
    ((JiraClient_search_issues (fun _ => List.replicate 100 (0 : ℕ)) 200).2).length = 1 := by
  refine ⟨rfl, by simp, by simp [JiraClient_search_issues], by norm_num, rfl⟩

/-- Witness for the amended C6: cap 150 with a server always returning full
pages of 100.  The GitHub loop requests pages 1 and 2 and stops (cap
reached); the non-final-request clause instantiated at the trace `[1, 2]`
discharges to: page 1 came back full and the accumulated 100 items were
below the cap. -/
theorem claim_C6_witness :
    min 100 150 ≤ ((fun (_ : ℕ) => List.replicate 100 (0 : ℕ)) 1).length ∧
    ((([] ++ [1]).map (fun (_ : ℕ) => List.replicate 100 (0 : ℕ))).flatten).length < 150 := by
  have e1 := @paginateLoop_eq_rec ℕ (fun (_ : ℕ) => List.replicate 100 (0 : ℕ))
    150 100 1 1 [] (by simp) (by simp) (by simp)
  have e2 := @paginateLoop_eq_last ℕ (fun (_ : ℕ) => List.replicate 100 (0 : ℕ))
    150 100 1 2 ([] ++ List.replicate 100 (0 : ℕ)) (by simp) (by simp) (by simp)
  have htrace : GitHubClient_paginate_search_requests
      (fun (_ : ℕ) => List.replicate 100 (0 : ℕ)) 150 = [] ++ 1 :: [2] := by
    unfold GitHubClient_paginate_search_requests
    have hmin : min 100 150 = 100 := by norm_num
    rw [hmin, e1]
    simp only
    rw [e2]
    rfl
  exact (claim_C6_pagination_amended (fun (_ : ℕ) => List.replicate 100 (0 : ℕ))
    (fun _ => []) 150).2.2.2.1 [] 1 [2] htrace (by simp)

/-! ## Claim C1 — the per-provider activity operation -/

/-- **C1 (code bug).** With validly-formatted inputs and both primary
searches succeeding, the ticket-tracker activity operation does not return a
metrics result: it calls `jira_client.count_reopened_issues(...)`, an
attribute `JiraClient` does not define (the class only has
`_count_reopened_issues`; even the sibling server in mcp_jira/server.py uses
the underscore name, and the call site's own comment claims a public method
exists).  The resulting `AttributeError` is re-raised by the generic handler
as a plain `Exception`, which is not a taxonomy error.  Evaluated here at
empty and at non-empty successful search results. -/
theorem claim_C1_jira_activity_attribute_error :
    jira_engineer_activity "alice@example.com" "2024-01-01" "2024-01-31" none
        (.ok []) (.ok []) =
      .error (.genericException
        ("Failed to calculate Jira engineering metrics: " ++
          "'JiraClient' object has no attribute 'count_reopened_issues'")) ∧
    jira_engineer_activity "alice@example.com" "2024-01-01" "2024-01-31"
        (some "project = ENG") (.ok [issueOpenDoneOpen]) (.ok [issueOpenDoneOpen]) =
      .error (.genericException
        ("Failed to calculate Jira engineering metrics: " ++
          "'JiraClient' object has no attribute 'count_reopened_issues'")) :=
  ⟨rfl, rfl⟩
